import Mathlib

/-!
# Verification of the ean-search.org C++ client (eansearch.hpp)

Shallow embedding of the request/response core of the `EANSearch` class:
the query encoder (`urlencode`), the response decoder (`ProductFromJSON`,
`ParseProductList`), the facade methods, and the query-string builder used
by `APICall`.  The HTTPS transport and the JSON tokenizer are external
collaborators: a facade call is modelled as a function of the transport
outcome, where the outcome carries either a transport failure or the
result of handing the body to the JSON parser.

C++ exceptions are modelled with `Except Exc`: Boost.JSON's checked
accessors (`value::at`, `as_string`), `json::parse` without an
`error_code`, and `std::stoi` all throw, and nothing in the facade
catches them, so a `.error` value reaching the top of a facade function
models an exception escaping the facade boundary.
-/

namespace EanSearch

/-- JSON values as delivered by the external JSON parser (Boost.JSON `value`).
An object keeps its fields in order; key lookup finds the first match. -/
inductive JVal where
  | jnull
  | jbool (b : Bool)
  | jnum (n : Int)
  | jstr (s : String)
  | jarr (elems : List JVal)
  | jobj (fields : List (String × JVal))

/-- The C++ exceptions the decode layer can raise. -/
inductive Exc where
  /-- `json::parse` (no `error_code` overload) on a malformed body. -/
  | parseError
  /-- `value::at(string_view)` applied to a non-object. -/
  | notObject
  /-- `value::at(string_view)` / `object::at` with a key that is absent. -/
  | keyNotFound (k : String)
  /-- `value::at(size_t)` applied to a non-array. -/
  | notArray
  /-- array index out of bounds, or `std::stoi` out of `int` range. -/
  | outOfRange
  /-- `value::as_string` applied to a non-string. -/
  | notString
  /-- `std::stoi` on a string with no leading integer (`std::invalid_argument`). -/
  | stoiInvalid
deriving Repr, DecidableEq

/-- First value stored under key `k`, as Boost.JSON `object::if_contains`/`at` find it. -/
def objFind : List (String × JVal) → String → Option JVal
  | [], _ => none
  | (k2, v) :: rest, k => if k2 = k then some v else objFind rest k

/-- Boost.JSON `value::at(string_view)`: throws on a non-object or a missing key. -/
def jAtKey : JVal → String → Except Exc JVal
  | .jobj fields, k =>
    match objFind fields k with
    | some v => .ok v
    | none => .error (.keyNotFound k)
  | _, _ => .error .notObject

/-- Boost.JSON `value::at(size_t)`: throws on a non-array or an index out of range. -/
def jAtIdx : JVal → Nat → Except Exc JVal
  | .jarr elems, i =>
    match elems.get? i with
    | some v => .ok v
    | none => .error .outOfRange
  | _, _ => .error .notArray

/-- Boost.JSON `value::as_string`: throws on a non-string. -/
def asString : JVal → Except Exc String
  | .jstr s => .ok s
  | _ => .error .notString

/-- Boost.JSON `value::if_object`: the fields when the value is an object, else null. -/
def ifObject : JVal → Option (List (String × JVal))
  | .jobj fields => some fields
  | _ => none

/-- Boost.JSON `value::if_array`: the elements when the value is an array, else null. -/
def ifArray : JVal → Option (List JVal)
  | .jarr elems => some elems
  | _ => none

/-- Boost.JSON `object::if_contains`, as a membership test. -/
def ifContains (fields : List (String × JVal)) (k : String) : Bool :=
  (objFind fields k).isSome

/-- The whitespace characters `std::stoi` (via `strtol`/`isspace`) skips. -/
def isCppSpace (c : Char) : Bool :=
  c = ' ' || c = '\t' || c = '\n' || c = '\x0b' || c = '\x0c' || c = '\r'

/-- `std::stoi`: skip leading whitespace, read an optional sign and a digit run;
throw `invalid_argument` when no digits follow, `out_of_range` past `int`. -/
def stoi (s : String) : Except Exc Int :=
  let cs := s.data.dropWhile isCppSpace
  let signed : Bool × List Char :=
    match cs with
    | '-' :: rest => (true, rest)
    | '+' :: rest => (false, rest)
    | _ => (false, cs)
  let ds := signed.2.takeWhile Char.isDigit
  if ds = [] then .error .stoiInvalid
  else
    let mag : Int := ds.foldl (fun a c => a * 10 + ((c.toNat : Int) - 48)) 0
    let v : Int := if signed.1 then -mag else mag
    if v < -(2 ^ 31) || 2 ^ 31 - 1 < v then .error .outOfRange else .ok v

/-- The base fields shared by `Product` and `ProductFull`. -/
structure ProductData where
  ean : String
  name : String
  categoryId : Int
  categoryName : String
  issuingCountry : String
deriving Repr, DecidableEq

/-- The dynamic type of the object `ProductFromJSON` allocates: a base
`Product` or a `ProductFull` carrying `googleCategoryId`. -/
inductive ProductV where
  | basic (d : ProductData)
  | full (d : ProductData) (googleCategoryId : Int)
deriving Repr, DecidableEq

/-- The required-field reads `ProductFromJSON` performs on the object, in
source order: `ean`, `name`, `categoryId` (stoi), `categoryName`,
`issuingCountry`; any of them throws through. -/
def requiredFields (v : JVal) : Except Exc ProductData := do
  let ean ← asString (← jAtKey v "ean")
  let name ← asString (← jAtKey v "name")
  let categoryId ← stoi (← asString (← jAtKey v "categoryId"))
  let categoryName ← asString (← jAtKey v "categoryName")
  let issuingCountry ← asString (← jAtKey v "issuingCountry")
  .ok ⟨ean, name, categoryId, categoryName, issuingCountry⟩

/-- `ProductFromJSON` (eansearch.hpp:206-224): `nullptr` (here `none`) when the
value is not an object; otherwise a `ProductFull` exactly when the object
contains `googleCategoryId` (whose string value is then `stoi`-parsed before
the base fields are filled), and a base `Product` otherwise. -/
def ProductFromJSON (api_result : JVal) : Except Exc (Option ProductV) :=
  match ifObject api_result with
  | none => .ok none
  | some fields =>
    if ifContains fields "googleCategoryId" then do
      let g ← stoi (← asString (← jAtKey api_result "googleCategoryId"))
      let d ← requiredFields api_result
      .ok (some (.full d g))
    else do
      let d ← requiredFields api_result
      .ok (some (.basic d))

/-- One transport outcome, with the JSON tokenizing of the body delegated to
the external parser: `none` models `APICall` returning `false`;
`some (.error ())` a body on which `json::parse` reports an error;
`some (.ok v)` a body parsing to `v`. -/
def Resp := Option (Except Unit JVal)

/-- `json::parse(result)` without an `error_code`: throws on a malformed body. -/
def parseOrThrow : Except Unit JVal → Except Exc JVal
  | .error _ => .error .parseError
  | .ok v => .ok v

/-- `json::parse(result, ec)`: a malformed body sets `ec` and leaves a null value. -/
def parseWithEc : Except Unit JVal → Except Unit JVal :=
  id

/-- `dynamic_cast<ProductFull *>` applied to `ProductFromJSON`'s result:
null stays null, a base `Product` casts to null, a `ProductFull` survives. -/
def castProductFull : Option ProductV → Option (ProductData × Int)
  | some (.full d g) => some (d, g)
  | _ => none

/-- `EANSearch::BarcodeLookup` after the transport (eansearch.hpp:230-240). -/
def BarcodeLookup (resp : Resp) : Except Exc (Option (ProductData × Int)) :=
  match resp with
  | none => .ok none
  | some body => do
    let api_result ← parseOrThrow body
    let item ← jAtIdx api_result 0
    let p ← ProductFromJSON item
    .ok (castProductFull p)

/-- `EANSearch::IsbnLookup` after the transport (eansearch.hpp:242-252). -/
def IsbnLookup (resp : Resp) : Except Exc (Option (ProductData × Int)) :=
  match resp with
  | none => .ok none
  | some body => do
    let api_result ← parseOrThrow body
    let item ← jAtIdx api_result 0
    let p ← ProductFromJSON item
    .ok (castProductFull p)

/-- `EANSearch::VerifyChecksum` after the transport (eansearch.hpp:254-263). -/
def VerifyChecksum (resp : Resp) : Except Exc Bool :=
  match resp with
  | none => .ok false
  | some body => do
    let api_result ← parseOrThrow body
    let item ← jAtIdx api_result 0
    let s ← asString (← jAtKey item "valid")
    .ok (s == "1")

/-- The loop body of `ParseProductList`: decode each element, push the
non-null results in order; a thrown decode aborts the whole loop. -/
def decodeItems : List JVal → Except Exc (List ProductV)
  | [] => .ok []
  | o :: rest => do
    let p ← ProductFromJSON o
    let tail ← decodeItems rest
    .ok (match p with | some q => q :: tail | none => tail)

/-- `EANSearch::ParseProductList` (eansearch.hpp:403-421): `nullptr` (here
`none`) when `json::parse` set `ec` or `productlist` is not an array; the
`value::at("productlist")` lookup itself throws on a non-object top level
or an absent key. -/
def ParseProductList (body : Except Unit JVal) : Except Exc (Option (List ProductV)) :=
  match parseWithEc body with
  | .error _ => .ok none
  | .ok api_result => do
    let pv ← jAtKey api_result "productlist"
    match ifArray pv with
    | none => .ok none
    | some elems => do
      let ps ← decodeItems elems
      .ok (some ps)

/-- `EANSearch::ProductSearch` after the transport (eansearch.hpp:265-272). -/
def ProductSearch (resp : Resp) : Except Exc (Option (List ProductV)) :=
  match resp with
  | none => .ok none
  | some body => ParseProductList body

/-- `EANSearch::SimilarProductSearch` after the transport (eansearch.hpp:274-281). -/
def SimilarProductSearch (resp : Resp) : Except Exc (Option (List ProductV)) :=
  match resp with
  | none => .ok none
  | some body => ParseProductList body

/-- `EANSearch::CategorySearch` after the transport (eansearch.hpp:283-291). -/
def CategorySearch (resp : Resp) : Except Exc (Option (List ProductV)) :=
  match resp with
  | none => .ok none
  | some body => ParseProductList body

/-- `EANSearch::BarcodePrefixSearch` after the transport (eansearch.hpp:293-301). -/
def BarcodePrefixSearch (resp : Resp) : Except Exc (Option (List ProductV)) :=
  match resp with
  | none => .ok none
  | some body => ParseProductList body

/-- `EANSearch::IssuingCountryLookup` after the transport (eansearch.hpp:303-313):
this one parses with an `error_code`, leaving a null value on parse failure,
on which `at(0)` then throws. -/
def IssuingCountryLookup (resp : Resp) : Except Exc String :=
  match resp with
  | none => .ok ""
  | some body =>
    match parseWithEc body with
    | .error _ => do
      let item ← jAtIdx .jnull 0
      let s ← asString (← jAtKey item "issuingCountry")
      .ok s
    | .ok api_result => do
      let item ← jAtIdx api_result 0
      let s ← asString (← jAtKey item "issuingCountry")
      .ok s

/-- `EANSearch::BarcodeImage` after the transport (eansearch.hpp:315-324). -/
def BarcodeImage (resp : Resp) : Except Exc String :=
  match resp with
  | none => .ok ""
  | some body => do
    let api_result ← parseOrThrow body
    let item ← jAtIdx api_result 0
    let s ← asString (← jAtKey item "barcode")
    .ok s

/-- The lookup table `hex = "0123456789ABCDEF"` of `urlencode`. -/
def hexTable : List Char := "0123456789ABCDEF".data

/-- The unreserved test of `urlencode` on one byte, written over byte values:
`A`-`Z`, `a`-`z`, `0`-`9`, `-`, `_`, `.`, `~`. -/
def isUnreserved (c : Nat) : Bool :=
  ('A'.toNat ≤ c && c ≤ 'Z'.toNat) ||
  ('a'.toNat ≤ c && c ≤ 'z'.toNat) ||
  ('0'.toNat ≤ c && c ≤ '9'.toNat) ||
  c = '-'.toNat || c = '_'.toNat || c = '.'.toNat || c = '~'.toNat

/-- One iteration of the `urlencode` loop: the byte itself when unreserved,
otherwise `%` and the two nibbles looked up in `hexTable`. -/
def encodeByte (c : Nat) : List Char :=
  if isUnreserved c then
    [Char.ofNat c]
  else
    ['%', hexTable.getD ((c >>> 4) &&& 0xF) ' ', hexTable.getD (c &&& 0xF) ' ']

/-- `EANSearch::urlencode` (eansearch.hpp:381-401) over the bytes of the
input `std::string`. -/
def urlencode : List Nat → List Char
  | [] => []
  | c :: rest => encodeByte c ++ urlencode rest

/-- The `Language` enum values (eansearch.hpp:64-78). -/
def englishLang : Int := 1
/-- `Language::Any`. -/
def anyLang : Int := 99

/-- Parameter string of `BarcodeLookup` (eansearch.hpp:233). -/
def barcodeLookupParams (ean : String) (language : Int) : String :=
  "op=barcode-lookup&ean=" ++ ean ++ "&language=" ++ toString language

/-- Parameter string of `IsbnLookup` (eansearch.hpp:245). -/
def isbnLookupParams (isbn : String) : String :=
  "op=barcode-lookup&isbn=" ++ isbn

/-- Parameter string of `VerifyChecksum` (eansearch.hpp:257). -/
def verifyChecksumParams (ean : String) : String :=
  "op=verify-checksum&ean=" ++ ean

/-- Parameter string of `ProductSearch` (eansearch.hpp:268); the free-text
name goes through `urlencode`. -/
def productSearchParams (name : List Nat) (only_language page : Int) : String :=
  "op=product-search&name=" ++ String.mk (urlencode name) ++
    "&language=" ++ toString only_language ++ "&page=" ++ toString page

/-- Parameter string of `SimilarProductSearch` (eansearch.hpp:277). -/
def similarProductSearchParams (name : List Nat) (only_language page : Int) : String :=
  "op=similar-product-search&name=" ++ String.mk (urlencode name) ++
    "&language=" ++ toString only_language ++ "&page=" ++ toString page

/-- Parameter string of `CategorySearch` (eansearch.hpp:286-287). -/
def categorySearchParams (category : Int) (name : List Nat) (only_language page : Int) : String :=
  "op=category-search&category=" ++ toString category ++ "&name=" ++ String.mk (urlencode name) ++
    "&language=" ++ toString only_language ++ "&page=" ++ toString page

/-- Parameter string of `BarcodePrefixSearch` (eansearch.hpp:296-297). -/
def barcodePrefixSearchParams (pfx : String) (language page : Int) : String :=
  "op=barcode-prefix-search&prefix=" ++ pfx ++
    "&language=" ++ toString language ++ "&page=" ++ toString page

/-- Parameter string of `IssuingCountryLookup` (eansearch.hpp:306). -/
def issuingCountryLookupParams (ean : String) : String :=
  "op=issuing-country&ean=" ++ ean

/-- Parameter string of `BarcodeImage` (eansearch.hpp:318). -/
def barcodeImageParams (ean : String) (width height : Int) : String :=
  "op=barcode-image&ean=" ++ ean ++ "&width=" ++ toString width ++ "&height=" ++ toString height

/-- `BarcodeLookup` called with only its required argument: the declared
default is `language = English` (eansearch.hpp:101). -/
def barcodeLookupParamsDefault (ean : String) : String :=
  barcodeLookupParams ean englishLang

/-- `ProductSearch` with only a name: defaults `only_language = Any`,
`page = 0` (eansearch.hpp:126). -/
def productSearchParamsDefault (name : List Nat) : String :=
  productSearchParams name anyLang 0

/-- `SimilarProductSearch` with only a name: defaults `only_language = Any`,
`page = 1` (eansearch.hpp:137). -/
def similarProductSearchParamsDefault (name : List Nat) : String :=
  similarProductSearchParams name anyLang 1

/-- `CategorySearch` with only category and name: defaults
`only_language = Any`, `page = 0` (eansearch.hpp:149). -/
def categorySearchParamsDefault (category : Int) (name : List Nat) : String :=
  categorySearchParams category name anyLang 0

/-- `BarcodePrefixSearch` with only a prefix: defaults `language = English`,
`page = 0` (eansearch.hpp:160). -/
def barcodePrefixSearchParamsDefault (pfx : String) : String :=
  barcodePrefixSearchParams pfx englishLang 0

/-- `BarcodeImage` with only a barcode: defaults `width = 102`,
`height = 50` (eansearch.hpp:176). -/
def barcodeImageParamsDefault (ean : String) : String :=
  barcodeImageParams ean 102 50

/-- The request target `APICall` sends (eansearch.hpp:337):
`"/api?" + params + "&token=" + this->token + "&format=json"`. -/
def apiTarget (token params : String) : String :=
  "/api?" ++ params ++ "&token=" ++ token ++ "&format=json"

/-- The state of an `EANSearch` object: its only member is the token. -/
structure EANSearch where
  token : String
deriving Repr, DecidableEq

/-- The constructor `EANSearch::EANSearch` (eansearch.hpp:226-228). -/
def mkEANSearch (token : String) : EANSearch :=
  ⟨token⟩

/-- One facade call with its arguments. -/
inductive Call where
  | barcodeLookup (ean : String) (language : Int)
  | isbnLookup (isbn : String)
  | verifyChecksum (ean : String)
  | productSearch (name : List Nat) (only_language page : Int)
  | similarProductSearch (name : List Nat) (only_language page : Int)
  | categorySearch (category : Int) (name : List Nat) (only_language page : Int)
  | barcodePrefixSearch (pfx : String) (language page : Int)
  | issuingCountryLookup (ean : String)
  | barcodeImage (ean : String) (width height : Int)

/-- The parameter string the named facade method hands to `APICall`. -/
def Call.params : Call → String
  | .barcodeLookup ean language => barcodeLookupParams ean language
  | .isbnLookup isbn => isbnLookupParams isbn
  | .verifyChecksum ean => verifyChecksumParams ean
  | .productSearch name only_language page => productSearchParams name only_language page
  | .similarProductSearch name only_language page => similarProductSearchParams name only_language page
  | .categorySearch category name only_language page => categorySearchParams category name only_language page
  | .barcodePrefixSearch pfx language page => barcodePrefixSearchParams pfx language page
  | .issuingCountryLookup ean => issuingCountryLookupParams ean
  | .barcodeImage ean width height => barcodeImageParams ean width height

/-- Running one facade call on an object: the request target is built by
`APICall` from the stored token; every facade method and `APICall` is
declared `const` and assigns to no member, so the object state after the
call is the state before it. -/
def runCall (es : EANSearch) (c : Call) : String × EANSearch :=
  (apiTarget es.token c.params, es)

/-- A sequence of facade calls: the targets sent, and the final object state. -/
def runCalls (es : EANSearch) : List Call → List String × EANSearch
  | [] => ([], es)
  | c :: rest =>
    let step := runCall es c
    let further := runCalls step.2 rest
    (step.1 :: further.1, further.2)

/-! ## Spec-side definitions

These follow the wording of the specification, to be compared with the
definitions embedded from the source. -/

/-- Spec-side: the uppercase hexadecimal digit of a nibble. -/
def upperHexDigit (n : Nat) : Char :=
  if n < 10 then Char.ofNat ('0'.toNat + n) else Char.ofNat ('A'.toNat + n - 10)

/-- Spec-side: a byte that is an ASCII letter, a digit, or one of `-`, `_`,
`.`, `~`. -/
def isUnreservedSpec (b : Nat) : Bool :=
  (Char.ofNat b).isAlpha || (Char.ofNat b).isDigit ||
    ['-', '_', '.', '~'].contains (Char.ofNat b)

/-- Spec-side encoding of one byte: unreserved bytes pass through unchanged,
every other byte becomes `%` followed by the two uppercase hex digits of its
value. -/
def specEncodeByte (b : Nat) : List Char :=
  if isUnreservedSpec b then [Char.ofNat b]
  else ['%', upperHexDigit (b / 16), upperHexDigit (b % 16)]

/-- Spec-side: the value of a hexadecimal digit, as a standard
percent-decoder accepts it. -/
def hexVal (c : Char) : Option Nat :=
  let n := c.toNat
  if 48 ≤ n ∧ n ≤ 57 then some (n - 48)
  else if 65 ≤ n ∧ n ≤ 70 then some (n - 55)
  else if 97 ≤ n ∧ n ≤ 102 then some (n - 87)
  else none

/-- Spec-side: standard percent-decoding. A `%` followed by two hex digits
becomes the byte they denote; any other character stands for its own code
point. (A malformed escape, which the encoder never emits, is passed
through literally.) -/
def percentDecode : List Char → List Nat
  | '%' :: h1 :: h2 :: rest =>
    (match hexVal h1, hexVal h2 with
     | some hi, some lo => (16 * hi + lo) :: percentDecode rest
     | _, _ => '%'.toNat :: h1.toNat :: h2.toNat :: percentDecode rest)
  | c :: rest => c.toNat :: percentDecode rest
  | [] => []

/-- Spec-side: the characters the encoder output may contain,
`[A-Za-z0-9-_.~%]`. -/
def outputAllowed (c : Char) : Bool :=
  c.isAlpha || c.isDigit || ['-', '_', '.', '~', '%'].contains c

/-- A product object with exactly the five required fields, in the order
the upstream service sends them. -/
def baseFields (ean name categoryId categoryName issuingCountry : String) :
    List (String × JVal) :=
  [("ean", .jstr ean), ("name", .jstr name), ("categoryId", .jstr categoryId),
   ("categoryName", .jstr categoryName), ("issuingCountry", .jstr issuingCountry)]

/-! ## Helper lemmas -/

set_option maxRecDepth 8192

theorem unreserved_facts :
    ∀ b < 256, isUnreserved b = true →
      Char.ofNat b ≠ '%' ∧ (Char.ofNat b).toNat = b := by decide

theorem escape_facts :
    ∀ b < 256, ¬ isUnreserved b = true →
      hexVal (hexTable.getD ((b >>> 4) &&& 0xF) ' ') = some (b / 16) ∧
      hexVal (hexTable.getD (b &&& 0xF) ' ') = some (b % 16) ∧
      16 * (b / 16) + b % 16 = b := by decide

theorem charset_byte :
    ∀ b < 256, ∀ c ∈ encodeByte b, outputAllowed c = true := by decide

theorem encodeByte_eq_spec :
    ∀ b < 256, encodeByte b = specEncodeByte b := by decide

theorem percentDecode_cons_ne (c : Char) (h : ¬ c = '%') (cs : List Char) :
    percentDecode (c :: cs) = c.toNat :: percentDecode cs := by
  match cs with
  | [] => simp [percentDecode]
  | [h1] => simp [percentDecode]
  | h1 :: h2 :: rest => simp [percentDecode, h]

theorem decode_encodeByte (b : Nat) (hb : b < 256) (cs : List Char) :
    percentDecode (encodeByte b ++ cs) = b :: percentDecode cs := by
  by_cases hu : isUnreserved b = true
  · obtain ⟨hne, htn⟩ := unreserved_facts b hb hu
    simp only [encodeByte, hu, if_true, List.cons_append, List.nil_append,
      percentDecode_cons_ne _ hne, htn]
  · obtain ⟨h1, h2, h3⟩ := escape_facts b hb hu
    simp only [encodeByte, hu, if_false, Bool.false_eq_true, List.cons_append,
      List.nil_append, percentDecode, h1, h2, h3]

theorem productFromJSON_basic (ean nm catId catName country : String) (n : Int)
    (h : stoi catId = .ok n) :
    ProductFromJSON (.jobj (baseFields ean nm catId catName country)) =
      .ok (some (.basic ⟨ean, nm, n, catName, country⟩)) := by
  simp [ProductFromJSON, ifObject, ifContains, objFind, baseFields, requiredFields,
    jAtKey, asString, h, Bind.bind, Except.bind]

theorem productFromJSON_full (ean nm catId catName country g : String) (n m : Int)
    (h : stoi catId = .ok n) (hg : stoi g = .ok m) :
    ProductFromJSON
        (.jobj (baseFields ean nm catId catName country ++ [("googleCategoryId", .jstr g)])) =
      .ok (some (.full ⟨ean, nm, n, catName, country⟩ m)) := by
  simp [ProductFromJSON, ifObject, ifContains, objFind, baseFields, requiredFields,
    jAtKey, asString, h, hg, Bind.bind, Except.bind]

theorem productFromJSON_gError (ean nm catId catName country g : String) (e : Exc)
    (hg : stoi g = .error e) :
    ProductFromJSON
        (.jobj (baseFields ean nm catId catName country ++ [("googleCategoryId", .jstr g)])) =
      .error e := by
  simp [ProductFromJSON, ifObject, ifContains, objFind, baseFields, requiredFields,
    jAtKey, asString, hg, Bind.bind, Except.bind]

/-! ## Claim theorems -/

/-- C1: the claim says no facade operation ever lets an exception propagate
for any transport outcome or response body. Evaluating the embedded facade
shows the opposite: on a body that is not JSON, the `json::parse` exception
escapes `VerifyChecksum`, `BarcodeLookup` and `BarcodeImage` (they parse
without an `error_code`), on a top-level JSON object `VerifyChecksum`
escapes with the `at(0)` exception, and `IssuingCountryLookup` (which does
use an `error_code`) still escapes via `at(0)` on the null value a failed
parse leaves behind. -/
theorem facade_exception_escapes :
    VerifyChecksum (some (.error ())) = .error .parseError ∧
    BarcodeLookup (some (.error ())) = .error .parseError ∧
    BarcodeImage (some (.error ())) = .error .parseError ∧
    VerifyChecksum (some (.ok (.jobj []))) = .error .notArray ∧
    IssuingCountryLookup (some (.error ())) = .error .notArray :=
  ⟨rfl, rfl, rfl, rfl, rfl⟩

/-- C2: `urlencode` maps every byte sequence byte by byte, an unreserved
byte (ASCII letter, digit, `-`, `_`, `.`, `~`) to itself and every other
byte to `%` followed by the two uppercase hex digits of its value.
Totality over all byte sequences is inherent in the definition. -/
theorem urlencode_per_byte_spec (s : List Nat) (h : ∀ b ∈ s, b < 256) :
    urlencode s = s.foldr (fun b acc => specEncodeByte b ++ acc) [] := by
  induction s with
  | nil => rfl
  | cons b rest ih =>
    have hb : b < 256 := h b (by simp)
    have hrest : ∀ x ∈ rest, x < 256 := fun x hx => h x (by simp [hx])
    simp only [urlencode, List.foldr_cons, ih hrest, encodeByte_eq_spec b hb]

theorem urlencode_per_byte_spec_witness :
    (∀ b ∈ [77, 47, 255, 32], b < 256) ∧
    urlencode [77, 47, 255, 32] =
      [77, 47, 255, 32].foldr (fun b acc => specEncodeByte b ++ acc) [] :=
  ⟨by decide, urlencode_per_byte_spec [77, 47, 255, 32] (by decide)⟩

/-- C3 counterexample: an object carrying all five required fields together
with `googleCategoryId = "not-a-number"` does not decode to the BasicProduct
variant, as the claim requires: `stoi` raises `std::invalid_argument` and
the item decode fails, while the same object without the field decodes
fine. -/
theorem googleCategoryId_parse_failure_fails_decode :
    ProductFromJSON
        (.jobj (baseFields "4711" "X" "15" "Music" "UK" ++
          [("googleCategoryId", .jstr "not-a-number")])) = .error .stoiInvalid ∧
    ProductFromJSON (.jobj (baseFields "4711" "X" "15" "Music" "UK")) =
      .ok (some (.basic ⟨"4711", "X", 15, "Music", "UK"⟩)) :=
  ⟨rfl, rfl⟩

/-- C3 (amended): for an object with decodable required fields, the decode
yields the FullProduct variant exactly when `googleCategoryId` is present
and its string value parses with `stoi`, and the BasicProduct variant when
the field is absent; the variant is determined solely by that field of the
object. However, a present `googleCategoryId` whose value does not parse
makes the whole item decode fail with the `stoi` exception rather than
falling back to BasicProduct. -/
theorem product_variant_rule (ean nm catId catName country : String) (n : Int)
    (h : stoi catId = .ok n) :
    ProductFromJSON (.jobj (baseFields ean nm catId catName country)) =
      .ok (some (.basic ⟨ean, nm, n, catName, country⟩)) ∧
    (∀ g m, stoi g = .ok m →
      ProductFromJSON
          (.jobj (baseFields ean nm catId catName country ++ [("googleCategoryId", .jstr g)])) =
        .ok (some (.full ⟨ean, nm, n, catName, country⟩ m))) ∧
    (∀ g e, stoi g = .error e →
      ProductFromJSON
          (.jobj (baseFields ean nm catId catName country ++ [("googleCategoryId", .jstr g)])) =
        .error e) :=
  ⟨productFromJSON_basic ean nm catId catName country n h,
   fun g m hg => productFromJSON_full ean nm catId catName country g n m h hg,
   fun g e hg => productFromJSON_gError ean nm catId catName country g e hg⟩

theorem product_variant_rule_witness :
    stoi "15" = .ok 15 ∧ stoi "55" = .ok 55 ∧
    ProductFromJSON
        (.jobj (baseFields "4711" "X" "15" "Music" "UK" ++ [("googleCategoryId", .jstr "55")])) =
      .ok (some (.full ⟨"4711", "X", 15, "Music", "UK"⟩ 55)) :=
  ⟨rfl, rfl, (product_variant_rule "4711" "X" "15" "Music" "UK" 15 rfl).2.1 "55" 55 rfl⟩

/-- C4: a single-item response whose object decodes to the base variant
(no `googleCategoryId`) makes `BarcodeLookup` and `IsbnLookup` return null,
because `dynamic_cast<ProductFull *>` of the base `Product` is null; that
is the same sentinel both methods return on transport failure, so the two
cases are indistinguishable to the caller. -/
theorem basic_item_lookup_returns_null (ean nm catId catName country : String)
    (n : Int) (h : stoi catId = .ok n) (rest : List JVal) :
    BarcodeLookup
        (some (.ok (.jarr (.jobj (baseFields ean nm catId catName country) :: rest)))) =
      .ok none ∧
    IsbnLookup
        (some (.ok (.jarr (.jobj (baseFields ean nm catId catName country) :: rest)))) =
      .ok none ∧
    BarcodeLookup none = .ok none ∧ IsbnLookup none = .ok none := by
  refine ⟨?_, ?_, rfl, rfl⟩ <;>
    simp [BarcodeLookup, IsbnLookup, parseOrThrow, jAtIdx,
      productFromJSON_basic ean nm catId catName country n h, castProductFull,
      Bind.bind, Except.bind]

theorem basic_item_lookup_returns_null_witness :
    stoi "15" = .ok 15 ∧
    BarcodeLookup (some (.ok (.jarr [.jobj (baseFields "4711" "X" "15" "Music" "UK")]))) =
      .ok none :=
  ⟨rfl, (basic_item_lookup_returns_null "4711" "X" "15" "Music" "UK" 15 rfl []).1⟩

/-- C5: the list decode distinguishes an empty `productlist` array (an
empty, non-failed list) from a parse failure and from a non-array field
(both null) as the claim says, but on a well-formed body whose
`productlist` field is absent it does not return the failure outcome:
`value::at` raises and the exception escapes, contradicting the claim. -/
theorem parse_product_list_outcomes :
    ParseProductList (.ok (.jobj [("productlist", .jarr [])])) = .ok (some []) ∧
    ParseProductList (.error ()) = .ok none ∧
    ParseProductList (.ok (.jobj [("productlist", .jstr "x")])) = .ok none ∧
    ParseProductList (.ok (.jobj [("foo", .jnum 1)])) =
      .error (.keyNotFound "productlist") :=
  ⟨rfl, rfl, rfl, rfl⟩

/-- C6: the claim says an element that fails required-field decoding is
silently skipped and the rest of the list still decodes. Evaluating the
embedded `ParseProductList` on a list of one valid item followed by an
item missing `name` shows the decode of the second item raising through
`value::at` and aborting the whole list; only elements that are not JSON
objects are skipped (second conjunct). -/
theorem failed_item_aborts_list :
    ParseProductList
        (.ok (.jobj [("productlist", .jarr
          [.jobj (baseFields "4711" "X" "15" "Music" "UK"),
           .jobj [("ean", .jstr "0815"), ("categoryId", .jstr "1"),
                  ("categoryName", .jstr "C"), ("issuingCountry", .jstr "DE")]])])) =
      .error (.keyNotFound "name") ∧
    ParseProductList
        (.ok (.jobj [("productlist", .jarr
          [.jobj (baseFields "4711" "X" "15" "Music" "UK"), .jstr "junk"])])) =
      .ok (some [.basic ⟨"4711", "X", 15, "Music", "UK"⟩]) :=
  ⟨rfl, rfl⟩

/-- C7: `VerifyChecksum` returns true when the decoded `valid` field is the
string `"1"`, false when it is any other string and false on transport
failure, as the claim says; but on a response whose first element lacks
`valid` (the shape `[{}]`, which the claim says yields false) the
`value::at` exception escapes instead. -/
theorem verify_checksum_outcomes :
    VerifyChecksum (some (.ok (.jarr [.jobj [("valid", .jstr "1")]]))) = .ok true ∧
    VerifyChecksum (some (.ok (.jarr [.jobj [("valid", .jstr "0")]]))) = .ok false ∧
    VerifyChecksum none = .ok false ∧
    VerifyChecksum (some (.ok (.jarr [.jobj []]))) = .error (.keyNotFound "valid") :=
  ⟨rfl, rfl, rfl, rfl⟩

/-- C8: the encoder output contains only characters from
`[A-Za-z0-9-_.~%]`, and standard percent-decoding of the output returns
exactly the input byte sequence. -/
theorem urlencode_charset_and_roundtrip (s : List Nat) (h : ∀ b ∈ s, b < 256) :
    (∀ c ∈ urlencode s, outputAllowed c = true) ∧
    percentDecode (urlencode s) = s := by
  induction s with
  | nil => exact ⟨by simp [urlencode], rfl⟩
  | cons b rest ih =>
    have hb : b < 256 := h b (by simp)
    have hrest : ∀ x ∈ rest, x < 256 := fun x hx => h x (by simp [hx])
    obtain ⟨ihc, ihd⟩ := ih hrest
    constructor
    · intro c hc
      rw [urlencode] at hc
      rcases List.mem_append.mp hc with hc | hc
      · exact charset_byte b hb c hc
      · exact ihc c hc
    · rw [urlencode, decode_encodeByte b hb, ihd]

theorem urlencode_charset_and_roundtrip_witness :
    (∀ b ∈ [77, 47, 255, 32], b < 256) ∧
    ((∀ c ∈ urlencode [77, 47, 255, 32], outputAllowed c = true) ∧
      percentDecode (urlencode [77, 47, 255, 32]) = [77, 47, 255, 32]) :=
  ⟨by decide, urlencode_charset_and_roundtrip [77, 47, 255, 32] (by decide)⟩

/-- C9: with only the required arguments, each facade method builds its
query with the documented defaults (language 1 for `BarcodeLookup` and
`BarcodePrefixSearch`, language 99 for the three name searches, page 0
except page 1 for `SimilarProductSearch`, width 102 and height 50 for
`BarcodeImage`), and every request target is `/api?` followed by the
`op=` field and the parameters in composition order, `&`-joined, then
`&token=<credential>&format=json`. -/
theorem query_defaults_and_shape (token ean isbn pfx : String) (category : Int)
    (name : List Nat) :
    apiTarget token (barcodeLookupParamsDefault ean) =
      "/api?op=barcode-lookup&ean=" ++ ean ++ "&language=1&token=" ++ token ++ "&format=json" ∧
    apiTarget token (isbnLookupParams isbn) =
      "/api?op=barcode-lookup&isbn=" ++ isbn ++ "&token=" ++ token ++ "&format=json" ∧
    apiTarget token (verifyChecksumParams ean) =
      "/api?op=verify-checksum&ean=" ++ ean ++ "&token=" ++ token ++ "&format=json" ∧
    apiTarget token (productSearchParamsDefault name) =
      "/api?op=product-search&name=" ++ String.mk (urlencode name) ++
        "&language=99&page=0&token=" ++ token ++ "&format=json" ∧
    apiTarget token (similarProductSearchParamsDefault name) =
      "/api?op=similar-product-search&name=" ++ String.mk (urlencode name) ++
        "&language=99&page=1&token=" ++ token ++ "&format=json" ∧
    apiTarget token (categorySearchParamsDefault category name) =
      "/api?op=category-search&category=" ++ toString category ++
        "&name=" ++ String.mk (urlencode name) ++
        "&language=99&page=0&token=" ++ token ++ "&format=json" ∧
    apiTarget token (barcodePrefixSearchParamsDefault pfx) =
      "/api?op=barcode-prefix-search&prefix=" ++ pfx ++
        "&language=1&page=0&token=" ++ token ++ "&format=json" ∧
    apiTarget token (issuingCountryLookupParams ean) =
      "/api?op=issuing-country&ean=" ++ ean ++ "&token=" ++ token ++ "&format=json" ∧
    apiTarget token (barcodeImageParamsDefault ean) =
      "/api?op=barcode-image&ean=" ++ ean ++
        "&width=102&height=50&token=" ++ token ++ "&format=json" := by
  refine ⟨?_, ?_, ?_, ?_, ?_, ?_, ?_, ?_, ?_⟩ <;>
    (apply String.ext
     simp only [apiTarget, barcodeLookupParams, isbnLookupParams, verifyChecksumParams,
       productSearchParams, similarProductSearchParams, categorySearchParams,
       barcodePrefixSearchParams, issuingCountryLookupParams, barcodeImageParams,
       barcodeLookupParamsDefault, productSearchParamsDefault,
       similarProductSearchParamsDefault, categorySearchParamsDefault,
       barcodePrefixSearchParamsDefault, barcodeImageParamsDefault,
       englishLang, anyLang, String.data_append, List.append_assoc]
     rfl)

/-- C10: the token given to the constructor is stored unmodified, every
facade call embeds exactly that token in its request target, and no call
changes the stored token: a whole call sequence sends targets each ending
in the constructor token and leaves the object in its initial state. -/
theorem token_invariant (t : String) (cs : List Call) :
    runCalls (mkEANSearch t) cs =
      (cs.map (fun c => "/api?" ++ c.params ++ "&token=" ++ t ++ "&format=json"),
       mkEANSearch t) := by
  induction cs with
  | nil => rfl
  | cons c rest ih =>
    simp only [runCalls, runCall, apiTarget, mkEANSearch, List.map_cons] at ih ⊢
    rw [ih]

end EanSearch
